import Mathlib

/-!
Verification development for the bucket-mounting tool (src/buckets/mount.py
and src/buckets/platform.py).

Embedding conventions:
* Filesystem paths are plain strings; `childPath dir name` models
  `Path(dir) / name` and `parentPath` models `Path(p).parent`.
* The mutable filesystem is the structure `FS`: an oracle for `Path.stat()`
  (`statErrno p = none` means the stat succeeds, `some e` means it raises
  `OSError` with that errno), an `lstat`-based `is_symlink` oracle, symlink
  targets, the Linux mount table (`mtab p` models `mountpoint -q p`
  succeeding) and the raw stdout of the macOS `mount` command.
  `Path.exists()` is `stat` succeeding, as in `pathlib`.
* Static facts about the machine (OS family, user names, which binaries are
  on PATH, the rclone config file, FUSE availability, exit codes and stderr
  of one-shot external commands, and the availability of the freshly
  launched mount at each 1-second poll tick) live in `Env`.
* Procedures that mutate the world are pure functions returning a trace of
  the externally visible mutating actions (`Action`), the updated `FS`, and
  an `Except` outcome mirroring the Python exceptions `MountError` /
  `UnmountError`.  Read-only probes (stat, `mountpoint -q`, `rclone lsd`)
  are not recorded in the trace.
* Effects of external commands on the filesystem (a successful
  `fusermount -uz`, the rclone daemon becoming ready) are modelled by the
  explicit state updates `clearStale`, `activate`, `deactivate`.  The macOS
  `mount` listing is only extended by `activate`; nothing in the claims
  probes it after an unmount.
* Quoted names inside Python error messages are reproduced without the
  surrounding quote characters; `time.sleep(1)` is recorded as the trace
  action `Action.sleepSec 1`; the `timeout=30` arguments of the two
  `rclone lsd` probes are not modelled (no real time in the embedding).
-/

namespace Buckets

/-- OS family, as detected by `platform.is_linux` / `platform.is_macos`. -/
inductive OS where
  | linux
  | macos
  | other
deriving DecidableEq

/-- Observable filesystem state: the probes the source code performs, plus
symlink targets (needed to state the fan-out properties). -/
structure FS where
  statErrno : String → Option Nat
  isSymlink : String → Bool
  symlinkTarget : String → Option String
  mtab : String → Bool
  mountOutput : String

/-- `pathlib.Path.exists()`: true exactly when `stat` succeeds. -/
def pathExists (fs : FS) (p : String) : Bool := (fs.statErrno p).isNone

/-- Static environment: platform facts (platform.py) and the outcome of
external one-shot commands.  `run cmd` gives (returncode, stderr) of
`subprocess.run cmd`; `pollActive i` tells whether the freshly launched
mount is active at the i-th 1-second poll tick. -/
structure Env where
  os : OS
  sysPlatform : String
  user : String
  envUser : Option String
  cwd : String
  home : String
  expanduser : String → String
  rcloneInPath : Bool
  rcloneConfigExists : Bool
  devFuseExists : Bool
  fuseTExists : Bool
  macFuseExists : Bool
  run : List String → Nat × String
  pollActive : Nat → Bool

/-- `platform.get_user`: `os.environ.get("USER", getpass.getuser())`. -/
def get_user (env : Env) : String := env.envUser.getD env.user

/-- `platform.get_mount_base`: `/tmp/<getpass.getuser()>/rclone`. -/
def get_mount_base (user : String) : String := "/tmp/" ++ user ++ "/rclone"

/-- `Path(dir) / name` rendered as a string. -/
def childPath (dir name : String) : String := dir ++ "/" ++ name

/-- `Path(p).parent` rendered as a string: everything before the last
slash (`.` when there is no slash, `/` when the slash is leading). -/
def parentPath (p : String) : String :=
  match p.data.reverse.dropWhile (fun c => !(c == '/')) with
  | [] => "."
  | _ :: tail => if tail.isEmpty then "/" else String.mk tail.reverse

/-- One pass of Python `str.replace("s3://", "")`: removes every
occurrence of `s3://`, scanning left to right, non-overlapping. -/
def strip_s3_occurrences : List Char → List Char
  | 's' :: '3' :: ':' :: '/' :: '/' :: rest => strip_s3_occurrences rest
  | c :: rest => c :: strip_s3_occurrences rest
  | [] => []

/-- Python `str.strip("/")`: drop slashes from both ends (performed right
end first, then left end; the two ends are independent so the order does
not matter). -/
def strip_slashes (l : List Char) : List Char :=
  ((l.reverse.dropWhile (fun c => c == '/')).reverse).dropWhile (fun c => c == '/')

/-- mount.py `_normalize_bucket_name`:
`bucket_name.replace("s3://", "").strip("/")`. -/
def normalize_bucket_name (bucket_name : String) : String :=
  String.mk (strip_slashes (strip_s3_occurrences bucket_name.data))

/-- mount.py `_is_stale_mount`: `path.stat()` raising `OSError` with
`errno == 107` (ENOTCONN, transport endpoint is not connected). -/
def is_stale_mount (fs : FS) (path : String) : Bool :=
  match fs.statErrno path with
  | none => false
  | some e => e == 107

/-- Bool-valued substring test (Python `in` on strings). -/
def listHasInfix (pat : List Char) : List Char → Bool
  | [] => pat.isEmpty
  | c :: cs => pat.isPrefixOf (c :: cs) || listHasInfix pat cs

/-- `pat in s` for strings. -/
def containsSubstr (s pat : String) : Bool := listHasInfix pat.data s.data

/-- The platform-specific tail of mount.py `_is_mountpoint_active`
(lines 100-117): `mountpoint -q` on Linux, parsing the `mount` listing
(including the `/private` prefix rewrite) on macOS, `False` elsewhere. -/
def mount_table_says_active (os : OS) (fs : FS) (path : String) : Bool :=
  match os with
  | OS.linux => fs.mtab path
  | OS.macos =>
      containsSubstr fs.mountOutput (" on " ++ path ++ " ")
        || containsSubstr fs.mountOutput (" on /private" ++ path ++ " ")
  | OS.other => false

/-- mount.py `_is_mountpoint_active` (lines 91-117): stale mounts are
never active; nonexistent paths are never active; otherwise the OS mount
table decides. -/
def is_mountpoint_active (os : OS) (fs : FS) (path : String) : Bool :=
  if is_stale_mount fs path then false
  else if !(pathExists fs path) then false
  else mount_table_says_active os fs path

/-- The three-valued mount state of spec section 4.1, realized by the
source pair `_is_stale_mount` / `_is_mountpoint_active`. -/
inductive MountState where
  | Unmounted
  | Active
  | Stale
deriving DecidableEq

/-- The Mount State Inspector `inspect(path)` of the spec, assembled from
the two source probes exactly in their internal order (stale first). -/
def inspect (os : OS) (fs : FS) (p : String) : MountState :=
  if is_stale_mount fs p then MountState.Stale
  else if is_mountpoint_active os fs p then MountState.Active
  else MountState.Unmounted

/-- platform.py `check_rclone`. -/
def check_rclone (env : Env) : Bool × String :=
  if !env.rcloneInPath then (false, "rclone not found in PATH")
  else if !env.rcloneConfigExists then
    (false, "rclone config not found at " ++ env.home ++ "/.config/rclone/rclone.conf")
  else (true, "rclone ready")

/-- platform.py `check_fuse`. -/
def check_fuse (env : Env) : Bool × String :=
  match env.os with
  | OS.linux =>
      if env.devFuseExists then (true, "FUSE available")
      else (false, "/dev/fuse not found - install fuse3")
  | OS.macos =>
      if env.fuseTExists then (true, "FUSE-T available")
      else if env.macFuseExists then (true, "macFUSE available")
      else (false, "FUSE-T not installed - brew install --cask fuse-t")
  | OS.other => (false, "Unsupported platform: " ++ env.sysPlatform)

/-- mount.py `_test_s3_access`: two `rclone lsd` probes. -/
def test_s3_access (env : Env) (bucket_name remote_name : String) : Bool × String :=
  let r1 := env.run ["rclone", "lsd", remote_name ++ ":"]
  if r1.1 != 0 then
    (false, "Cannot connect to S3 remote " ++ remote_name ++ ": " ++ r1.2)
  else
    let r2 := env.run ["rclone", "lsd", remote_name ++ ":" ++ bucket_name]
    if r2.1 != 0 then
      (false, "Cannot access bucket " ++ bucket_name ++ ": " ++ r2.2)
    else (true, "OK")

/-- The two exception types of mount.py. -/
inductive Err where
  | mountError (msg : String)
  | unmountError (msg : String)
deriving DecidableEq

/-- Externally visible mutating steps, in program order. -/
inductive Action where
  | runExternal (cmd : List String)
  | rcloneMount (bucket mount_point : String)
  | mkdirP (p : String)
  | clearDir (p : String)
  | probe (i : Nat)
  | sleepSec (n : Nat)
  | unlinkPath (p : String)
  | symlinkTo (link target : String)
deriving DecidableEq

/-- Pointwise update of the stat oracle. -/
def FS.setStatErrno (fs : FS) (p : String) (v : Option Nat) : FS :=
  { fs with statErrno := fun q => if q = p then v else fs.statErrno q }

/-- Effect of `mkdir(parents=True, exist_ok=True)` on the probes the code
later performs: the directory now stats successfully. -/
def FS.mkdirP (fs : FS) (p : String) : FS := fs.setStatErrno p none

/-- Effect of `symlink_path.symlink_to(target)`: an lstat sees a symlink,
a following stat sees whatever the target's stat currently gives. -/
def addLink (fs : FS) (link target : String) : FS :=
  { fs with
    statErrno := fun q => if q = link then fs.statErrno target else fs.statErrno q
    isSymlink := fun q => if q = link then true else fs.isSymlink q
    symlinkTarget := fun q => if q = link then some target else fs.symlinkTarget q }

/-- Effect of `symlink_path.unlink()` on a symlink: the entry is gone
(stat raises ENOENT). -/
def removeLink (fs : FS) (link : String) : FS :=
  { fs with
    statErrno := fun q => if q = link then some 2 else fs.statErrno q
    isSymlink := fun q => if q = link then false else fs.isSymlink q
    symlinkTarget := fun q => if q = link then none else fs.symlinkTarget q }

/-- External effect of the rclone daemon becoming ready at `p`: stats
succeed, `mountpoint -q` succeeds, the macOS listing gains a line. -/
def activate (fs : FS) (p : String) : FS :=
  { fs with
    statErrno := fun q => if q = p then none else fs.statErrno q
    mtab := fun q => if q = p then true else fs.mtab q
    mountOutput := fs.mountOutput ++ "x on " ++ p ++ " (fuse)\n" }

/-- External effect of a successful forced unmount at `p`: the mount
table entry is gone (the emptied directory remains). -/
def deactivate (fs : FS) (p : String) : FS :=
  { fs with mtab := fun q => if q = p then false else fs.mtab q }

/-- External effect of a successful lazy unmount of a stale registration:
the path stats again as the (empty) directory left behind. -/
def clearStale (fs : FS) (p : String) : FS :=
  { fs with
    statErrno := fun q => if q = p then none else fs.statErrno q
    mtab := fun q => if q = p then false else fs.mtab q }

/-- mount.py `_cleanup_stale_mount` (lines 58-88). -/
def cleanup_stale_mount (env : Env) (fs : FS) (path : String) :
    List Action × FS × Bool :=
  if !(is_stale_mount fs path) then ([], fs, true)
  else
    match env.os with
    | OS.linux =>
        if (env.run ["fusermount3", "-uz", path]).1 == 0 then
          ([Action.runExternal ["fusermount3", "-uz", path]], clearStale fs path, true)
        else if (env.run ["fusermount", "-uz", path]).1 == 0 then
          ([Action.runExternal ["fusermount3", "-uz", path],
            Action.runExternal ["fusermount", "-uz", path]], clearStale fs path, true)
        else
          ([Action.runExternal ["fusermount3", "-uz", path],
            Action.runExternal ["fusermount", "-uz", path]], fs, false)
    | OS.macos =>
        if (env.run ["umount", path]).1 == 0 then
          ([Action.runExternal ["umount", path]], clearStale fs path, true)
        else ([Action.runExternal ["umount", path]], fs, false)
    | OS.other => ([], fs, false)

/-- The per-bucket daemon log file `/tmp/<user>/rclone-logs/<bucket>.log`
(mount.py lines 152-155 and 330). -/
def rclone_log_file (env : Env) (bucket_name : String) : String :=
  "/tmp/" ++ get_user env ++ "/rclone-logs/" ++ bucket_name ++ ".log"

/-- The fixed rclone mount command line (mount.py lines 157-181). -/
def rclone_mount_cmd (bucket mount_point remote log_file : String) : List String :=
  ["rclone", "mount", remote ++ ":" ++ bucket, mount_point, "--daemon",
   "--vfs-cache-mode", "writes", "--s3-chunk-size", "50M",
   "--s3-upload-cutoff", "50M", "--buffer-size", "50M",
   "--dir-cache-time", "30s", "--timeout", "30s", "--contimeout", "30s",
   "--log-level", "INFO", "--log-file", log_file]

/-- mount.py `_do_mount` (lines 145-192): launch the detached daemon;
raise `MountError` on a nonzero exit code. -/
def do_mount (env : Env) (bucket mount_point remote : String) :
    List Action × Except Err Unit :=
  let log_dir := "/tmp/" ++ get_user env ++ "/rclone-logs"
  let cmd := rclone_mount_cmd bucket mount_point remote (rclone_log_file env bucket)
  let r := env.run cmd
  if r.1 != 0 then
    ([Action.mkdirP log_dir, Action.rcloneMount bucket mount_point],
     Except.error (Err.mountError
       ("rclone mount failed (exit code " ++ toString r.1 ++ ")")))
  else
    ([Action.mkdirP log_dir, Action.rcloneMount bucket mount_point], Except.ok ())

/-- mount.py `_poll_until_mounted` loop body: probe at tick `i`, sleep one
second after each failed probe, give up after `n` more attempts. -/
def poll_body (active : Nat → Bool) : Nat → Nat → List Action × Bool
  | _, 0 => ([], false)
  | i, Nat.succ n =>
      if active i then ([Action.probe i], true)
      else
        let r := poll_body active (i + 1) n
        (Action.probe i :: Action.sleepSec 1 :: r.1, r.2)

/-- mount.py `_poll_until_mounted` (lines 195-201); the default bound is
`timeout = 10` attempts. -/
def poll_until_mounted (active : Nat → Bool) (timeout : Nat) : List Action × Bool :=
  poll_body active 0 timeout

/-- mount.py `_do_unmount` (lines 204-226). -/
def do_unmount (env : Env) (fs : FS) (mount_point : String) :
    List Action × FS × Except Err Unit :=
  match env.os with
  | OS.linux =>
      if (env.run ["fusermount3", "-uz", mount_point]).1 == 0 then
        ([Action.runExternal ["fusermount3", "-uz", mount_point]],
         deactivate fs mount_point, Except.ok ())
      else if (env.run ["fusermount", "-uz", mount_point]).1 == 0 then
        ([Action.runExternal ["fusermount3", "-uz", mount_point],
          Action.runExternal ["fusermount", "-uz", mount_point]],
         deactivate fs mount_point, Except.ok ())
      else
        ([Action.runExternal ["fusermount3", "-uz", mount_point],
          Action.runExternal ["fusermount", "-uz", mount_point]], fs,
         Except.error (Err.unmountError ("Failed to unmount " ++ mount_point)))
  | OS.macos =>
      if (env.run ["umount", mount_point]).1 == 0 then
        ([Action.runExternal ["umount", mount_point]],
         deactivate fs mount_point, Except.ok ())
      else
        ([Action.runExternal ["umount", mount_point]], fs,
         Except.error (Err.unmountError
           ("Failed to unmount " ++ mount_point ++ ": "
             ++ (env.run ["umount", mount_point]).2)))
  | OS.other => ([], fs, Except.ok ())

/-- mount.py `is_mounted` (lines 228-240). -/
def is_mounted (env : Env) (fs : FS) (bucket_name : String) : Bool :=
  is_mountpoint_active env.os fs
    (childPath (get_mount_base env.user) (normalize_bucket_name bucket_name))

/-- The three `mkdir(parents=True, exist_ok=True)` calls of mount.py
lines 304-306. -/
def mkdir3 (fs : FS) (mount_point symlink_path : String) : FS :=
  ((fs.mkdirP (parentPath mount_point)).mkdirP mount_point).mkdirP
    (parentPath symlink_path)

/-- Trace of the three `mkdir` calls of mount.py lines 304-306. -/
def mkdir3_trace (mount_point symlink_path : String) : List Action :=
  [Action.mkdirP (parentPath mount_point), Action.mkdirP mount_point,
   Action.mkdirP (parentPath symlink_path)]

/-- mount.py lines 315-337 (`MountIfNeeded` and `PollReady`): skip
everything when the mount point is already active, otherwise purge the
directory, launch the daemon and poll up to 10 times. -/
def mount_if_needed (env : Env) (fs : FS) (bucket mount_point remote : String) :
    List Action × FS × Except Err Unit :=
  if is_mountpoint_active env.os fs mount_point then ([], fs, Except.ok ())
  else
    let dm := do_mount env bucket mount_point remote
    match dm.2 with
    | Except.error e => (Action.clearDir mount_point :: dm.1, fs, Except.error e)
    | Except.ok _ =>
        let pl := poll_until_mounted env.pollActive 10
        if pl.2 then
          (Action.clearDir mount_point :: dm.1 ++ pl.1,
           activate fs mount_point, Except.ok ())
        else
          (Action.clearDir mount_point :: dm.1 ++ pl.1, fs,
           Except.error (Err.mountError
             ("Mount failed. Check logs: " ++ rclone_log_file env bucket)))

/-- mount.py lines 339-342 (`LinkSymlink`): replace any existing symlink
at the target path with a fresh symlink to the mount point. -/
def link_step (fs : FS) (symlink_path mount_point : String) : List Action × FS :=
  if fs.isSymlink symlink_path then
    ([Action.unlinkPath symlink_path, Action.symlinkTo symlink_path mount_point],
     addLink (removeLink fs symlink_path) symlink_path mount_point)
  else
    ([Action.symlinkTo symlink_path mount_point], addLink fs symlink_path mount_point)

/-- mount.py lines 303-347: directory preparation, conflict check, mount
if needed, symlink creation. -/
def mount_core (env : Env) (fs : FS) (bucket mount_point symlink_path remote : String) :
    List Action × FS × Except Err String :=
  let fs2 := mkdir3 fs mount_point symlink_path
  let tr2 := mkdir3_trace mount_point symlink_path
  if pathExists fs2 symlink_path && !(fs2.isSymlink symlink_path) then
    (tr2, fs2, Except.error (Err.mountError
      (symlink_path ++ " exists and is not a symlink")))
  else if is_mountpoint_active env.os fs2 symlink_path then
    (tr2, fs2, Except.error (Err.mountError
      (symlink_path ++ " is already a mount point")))
  else
    let mi := mount_if_needed env fs2 bucket mount_point remote
    match mi.2.2 with
    | Except.error e => (tr2 ++ mi.1, mi.2.1, Except.error e)
    | Except.ok _ =>
        let ls := link_step mi.2.1 symlink_path mount_point
        (tr2 ++ mi.1 ++ ls.1, ls.2, Except.ok symlink_path)

/-- mount.py `mount_bucket` (lines 243-347). -/
def mount_bucket (env : Env) (fs : FS) (bucket_name : String)
    (root_dir : Option String) (remote_name : String) :
    List Action × FS × Except Err String :=
  let b := normalize_bucket_name bucket_name
  let root := match root_dir with
    | some r => env.expanduser r
    | none => env.cwd
  let mount_point := childPath (get_mount_base env.user) b
  let symlink_path := childPath root b
  let rc := check_rclone env
  if !rc.1 then ([], fs, Except.error (Err.mountError rc.2))
  else
    let fc := check_fuse env
    if !fc.1 then ([], fs, Except.error (Err.mountError fc.2))
    else
      let sc := test_s3_access env b remote_name
      if !sc.1 then ([], fs, Except.error (Err.mountError sc.2))
      else if is_stale_mount fs mount_point then
        let cl := cleanup_stale_mount env fs mount_point
        if cl.2.2 then
          let mc := mount_core env cl.2.1 b mount_point symlink_path remote_name
          (cl.1 ++ mc.1, mc.2.1, mc.2.2)
        else
          (cl.1, cl.2.1, Except.error (Err.mountError
            ("Failed to clean up stale mount at " ++ mount_point)))
      else mount_core env fs b mount_point symlink_path remote_name

/-- mount.py `unlink_bucket` (lines 350-381): remove a symlink without
unmounting; report `false` when there is no symlink at the path. -/
def unlink_bucket (env : Env) (fs : FS) (bucket_name : String)
    (root_dir : Option String) : List Action × FS × Bool :=
  let b := normalize_bucket_name bucket_name
  let root := match root_dir with
    | some r => env.expanduser r
    | none => env.cwd
  let symlink_path := childPath root b
  if !(fs.isSymlink symlink_path) then ([], fs, false)
  else ([Action.unlinkPath symlink_path], removeLink fs symlink_path, true)

/-- mount.py `unmount_bucket` (lines 384-418). -/
def unmount_bucket (env : Env) (fs : FS) (bucket_name : String)
    (remove_symlinks : Bool) : List Action × FS × Except Err Unit :=
  let b := normalize_bucket_name bucket_name
  let mount_point := childPath (get_mount_base env.user) b
  if !(is_mountpoint_active env.os fs mount_point) then ([], fs, Except.ok ())
  else
    let du := do_unmount env fs mount_point
    match du.2.2 with
    | Except.error e => (du.1, du.2.1, Except.error e)
    | Except.ok _ =>
        if remove_symlinks then
          let ds := childPath env.cwd b
          if (du.2.1).isSymlink ds then
            (du.1 ++ [Action.unlinkPath ds], removeLink du.2.1 ds, Except.ok ())
          else (du.1, du.2.1, Except.ok ())
        else (du.1, du.2.1, Except.ok ())

/-- Status record returned by mount.py `get_mount_status` (lines 447-464). -/
structure MountStatus where
  bucket : String
  mount_point : String
  is_mounted : Bool
  default_symlink : String
  symlink_exists : Bool
deriving DecidableEq

/-- mount.py `get_mount_status` (lines 447-464). -/
def get_mount_status (env : Env) (fs : FS) (bucket_name : String) : MountStatus :=
  let b := normalize_bucket_name bucket_name
  let mount_point := childPath (get_mount_base env.user) b
  let default_symlink := childPath env.cwd b
  { bucket := b
    mount_point := mount_point
    is_mounted := is_mountpoint_active env.os fs mount_point
    default_symlink := default_symlink
    symlink_exists := fs.isSymlink default_symlink }

/-- Number of external mount-daemon launches recorded in a trace. -/
def countMountLaunches (tr : List Action) : Nat :=
  (tr.filter (fun a => match a with
    | Action.rcloneMount _ _ => true
    | _ => false)).length

/-- Example environment: a Linux box, user `u`, working directory
`/home/u`, rclone and FUSE available, every external command exiting 0,
and a freshly launched mount that is ready at the first poll tick. -/
def exEnv : Env where
  os := OS.linux
  sysPlatform := "linux"
  user := "u"
  envUser := none
  cwd := "/home/u"
  home := "/home/u"
  expanduser := fun s => s
  rcloneInPath := true
  rcloneConfigExists := true
  devFuseExists := true
  fuseTExists := false
  macFuseExists := false
  run := fun _ => (0, "")
  pollActive := fun _ => true

/-- `exEnv`, but the freshly launched mount never becomes ready. -/
def exEnvPollFail : Env := { exEnv with pollActive := fun _ => false }

/-- Filesystem where the bucket `b` of user `u` is a stale mount
(stat raises ENOTCONN) while the mount table still lists it. -/
def exFSStale : FS where
  statErrno := fun p => if p = "/tmp/u/rclone/b" then some 107 else some 2
  isSymlink := fun _ => false
  symlinkTarget := fun _ => none
  mtab := fun _ => true
  mountOutput := ""

/-- Filesystem where the bucket `b` of user `u` is actively mounted and
nothing else exists. -/
def exFSActive : FS where
  statErrno := fun p => if p = "/tmp/u/rclone/b" then none else some 2
  isSymlink := fun _ => false
  symlinkTarget := fun _ => none
  mtab := fun p => p == "/tmp/u/rclone/b"
  mountOutput := ""

/-- Completely empty filesystem: every stat raises ENOENT. -/
def exFSEmpty : FS where
  statErrno := fun _ => some 2
  isSymlink := fun _ => false
  symlinkTarget := fun _ => none
  mtab := fun _ => false
  mountOutput := ""

/-- Filesystem with only a regular (non-symlink) file at `/data/b`. -/
def exFSPlainFile : FS where
  statErrno := fun p => if p = "/data/b" then none else some 2
  isSymlink := fun _ => false
  symlinkTarget := fun _ => none
  mtab := fun _ => false
  mountOutput := ""

/-- Filesystem with only a dangling default symlink at `/home/u/b`
pointing at the (inactive) canonical mount point. -/
def exFSLinkOnly : FS where
  statErrno := fun p => if p = "/home/u/b" then none else some 2
  isSymlink := fun p => p == "/home/u/b"
  symlinkTarget := fun p => if p = "/home/u/b" then some "/tmp/u/rclone/b" else none
  mtab := fun _ => false
  mountOutput := ""

/-- First concrete mount call: bucket `b`, root `/home/u/a`, mount point
already active. -/
def c1run1 : List Action × FS × Except Err String :=
  mount_bucket exEnv exFSActive "b" (some "/home/u/a") "s3_remote"

/-- Second concrete mount call on the state left by `c1run1`, with a
different root `/home/u/c`. -/
def c1run2 : List Action × FS × Except Err String :=
  mount_bucket exEnv c1run1.2.1 "b" (some "/home/u/c") "s3_remote"

/-! ### Frame lemmas for the filesystem updates -/

@[simp] theorem mkdirP_statErrno (fs : FS) (q p : String) :
    (FS.mkdirP fs q).statErrno p = if p = q then none else fs.statErrno p := rfl

@[simp] theorem mkdirP_isSymlink (fs : FS) (q p : String) :
    (FS.mkdirP fs q).isSymlink p = fs.isSymlink p := rfl

@[simp] theorem mkdirP_symlinkTarget (fs : FS) (q p : String) :
    (FS.mkdirP fs q).symlinkTarget p = fs.symlinkTarget p := rfl

@[simp] theorem mkdirP_mtab (fs : FS) (q p : String) :
    (FS.mkdirP fs q).mtab p = fs.mtab p := rfl

@[simp] theorem mkdirP_mountOutput (fs : FS) (q : String) :
    (FS.mkdirP fs q).mountOutput = fs.mountOutput := rfl

@[simp] theorem addLink_statErrno (fs : FS) (l t p : String) :
    (addLink fs l t).statErrno p = if p = l then fs.statErrno t else fs.statErrno p := rfl

@[simp] theorem addLink_isSymlink (fs : FS) (l t p : String) :
    (addLink fs l t).isSymlink p = if p = l then true else fs.isSymlink p := rfl

@[simp] theorem addLink_symlinkTarget (fs : FS) (l t p : String) :
    (addLink fs l t).symlinkTarget p = if p = l then some t else fs.symlinkTarget p := rfl

@[simp] theorem addLink_mtab (fs : FS) (l t p : String) :
    (addLink fs l t).mtab p = fs.mtab p := rfl

@[simp] theorem addLink_mountOutput (fs : FS) (l t : String) :
    (addLink fs l t).mountOutput = fs.mountOutput := rfl

@[simp] theorem removeLink_statErrno (fs : FS) (l p : String) :
    (removeLink fs l).statErrno p = if p = l then some 2 else fs.statErrno p := rfl

@[simp] theorem removeLink_isSymlink (fs : FS) (l p : String) :
    (removeLink fs l).isSymlink p = if p = l then false else fs.isSymlink p := rfl

@[simp] theorem removeLink_symlinkTarget (fs : FS) (l p : String) :
    (removeLink fs l).symlinkTarget p = if p = l then none else fs.symlinkTarget p := rfl

@[simp] theorem removeLink_mtab (fs : FS) (l p : String) :
    (removeLink fs l).mtab p = fs.mtab p := rfl

@[simp] theorem removeLink_mountOutput (fs : FS) (l : String) :
    (removeLink fs l).mountOutput = fs.mountOutput := rfl

@[simp] theorem activate_statErrno (fs : FS) (m p : String) :
    (activate fs m).statErrno p = if p = m then none else fs.statErrno p := rfl

@[simp] theorem activate_isSymlink (fs : FS) (m p : String) :
    (activate fs m).isSymlink p = fs.isSymlink p := rfl

@[simp] theorem activate_symlinkTarget (fs : FS) (m p : String) :
    (activate fs m).symlinkTarget p = fs.symlinkTarget p := rfl

@[simp] theorem activate_mtab (fs : FS) (m p : String) :
    (activate fs m).mtab p = if p = m then true else fs.mtab p := rfl

/-! ### Probe lemmas -/

theorem statErrno_of_active (os : OS) (fs : FS) (p : String)
    (h : is_mountpoint_active os fs p = true) : fs.statErrno p = none := by
  unfold is_mountpoint_active at h
  cases hs : fs.statErrno p with
  | none => rfl
  | some e =>
      cases he : e == 107 <;>
        simp [is_stale_mount, hs, pathExists, he] at h

theorem active_of_not_exists (os : OS) (fs : FS) (p : String)
    (h : pathExists fs p = false) : is_mountpoint_active os fs p = false := by
  unfold is_mountpoint_active
  cases hs : is_stale_mount fs p <;> simp [hs, h]

theorem active_congr (os : OS) (fs fs' : FS) (p : String)
    (h1 : fs'.statErrno p = fs.statErrno p)
    (h2 : fs'.mtab p = fs.mtab p)
    (h3 : fs'.mountOutput = fs.mountOutput) :
    is_mountpoint_active os fs' p = is_mountpoint_active os fs p := by
  unfold is_mountpoint_active is_stale_mount pathExists mount_table_says_active
  rw [h1]
  cases os <;> simp [h2, h3]

theorem active_mkdirP (os : OS) (fs : FS) (p q : String)
    (h : is_mountpoint_active os fs p = true) :
    is_mountpoint_active os (FS.mkdirP fs q) p = true := by
  have hn := statErrno_of_active os fs p h
  have h1 : (FS.mkdirP fs q).statErrno p = fs.statErrno p := by
    by_cases hpq : p = q
    · subst hpq
      simp [hn]
    · simp [hpq]
  rw [active_congr os fs (FS.mkdirP fs q) p h1 rfl rfl]
  exact h

/-! ### Normalization lemmas -/

theorem strip_s3_pat_head (l : List Char) :
    strip_s3_occurrences ('s' :: '3' :: ':' :: '/' :: '/' :: l)
      = strip_s3_occurrences l := rfl

theorem strip_slashes_append_slash (l : List Char) :
    strip_slashes (l ++ ['/']) = strip_slashes l := by
  unfold strip_slashes
  simp

/-- Appending a final slash to a word that does not already end in a
slash cannot create a new `s3://` occurrence, so the replace pass
commutes with the append. -/
theorem strip_s3_append_slash :
    ∀ l : List Char, (¬ ∃ t : List Char, l = t ++ ['/']) →
      strip_s3_occurrences (l ++ ['/']) = strip_s3_occurrences l ++ ['/'] := by
  intro l
  induction l using strip_s3_occurrences.induct with
  | case1 rest ih =>
      intro hl
      have hrest : ¬ ∃ t : List Char, rest = t ++ ['/'] := by
        rintro ⟨t, ht⟩
        exact hl ⟨'s' :: '3' :: ':' :: '/' :: '/' :: t, by simp [ht]⟩
      have hstep := ih hrest
      simp only [List.cons_append, strip_s3_occurrences]
      exact hstep
  | case2 c cs h ih =>
      intro hl
      have hcs : ¬ ∃ t : List Char, cs = t ++ ['/'] := by
        rintro ⟨t, ht⟩
        exact hl ⟨c :: t, by simp [ht]⟩
      have hnm2 : ∀ rest : List Char, c = 's' →
          cs ++ ['/'] = '3' :: ':' :: '/' :: '/' :: rest → False := by
        intro rest hc hcseq
        rcases cs with _ | ⟨a, _ | ⟨b2, _ | ⟨d, _ | ⟨e, tail⟩⟩⟩⟩
        · simpa using congrArg List.length hcseq
        · simpa using congrArg List.length hcseq
        · simpa using congrArg List.length hcseq
        · have hrest0 : rest = [] := by
            simpa using congrArg List.length hcseq
          subst hrest0
          simp [List.cons.injEq] at hcseq
          obtain ⟨ha, hb2, hd⟩ := hcseq
          exact hl ⟨c :: a :: b2 :: [], by simp [hd]⟩
        · simp only [List.cons_append, List.cons.injEq] at hcseq
          obtain ⟨ha, hb2, hd, he, -⟩ := hcseq
          exact h tail hc (by rw [ha, hb2, hd, he])
      simp only [List.cons_append, strip_s3_occurrences]
      rw [ih hcs]
  | case3 =>
      intro _
      rfl

/-! ### Claims -/

/-- C4: supplying a bucket name with the `s3://` scheme prefix, a
trailing slash, or both, normalizes to the identical canonical id as
supplying the bare name.  The bare name is one without the decorations,
so it does not itself end in a slash. -/
theorem C4_normalization_invariance (b : String)
    (hb : b.data.getLast? ≠ some '/') :
    normalize_bucket_name ("s3://" ++ b) = normalize_bucket_name b
    ∧ normalize_bucket_name (b ++ "/") = normalize_bucket_name b
    ∧ normalize_bucket_name ("s3://" ++ b ++ "/") = normalize_bucket_name b := by
  have hb2 : ¬ ∃ t : List Char, b.data = t ++ ['/'] := by
    rintro ⟨t, ht⟩
    apply hb
    rw [ht]
    simp
  refine ⟨?_, ?_, ?_⟩
  · show String.mk (strip_slashes
        (strip_s3_occurrences ('s' :: '3' :: ':' :: '/' :: '/' :: b.data))) = _
    rw [strip_s3_pat_head]
    rfl
  · show String.mk (strip_slashes (strip_s3_occurrences (b.data ++ ['/']))) = _
    rw [strip_s3_append_slash b.data hb2, strip_slashes_append_slash]
    rfl
  · show String.mk (strip_slashes
        (strip_s3_occurrences ('s' :: '3' :: ':' :: '/' :: '/' :: (b.data ++ ['/'])))) = _
    rw [strip_s3_pat_head, strip_s3_append_slash b.data hb2, strip_slashes_append_slash]
    rfl

/-- C4 witness: the three decorated spellings of `data-team` all
normalize to the same id as the bare name. -/
theorem C4_witness :
    normalize_bucket_name "s3://data-team" = normalize_bucket_name "data-team"
    ∧ normalize_bucket_name "data-team/" = normalize_bucket_name "data-team"
    ∧ normalize_bucket_name "s3://data-team/" = normalize_bucket_name "data-team" :=
  C4_normalization_invariance "data-team" (by decide)

/-- C2: the Mount State Inspector classifies a path whose stat raises
ENOTCONN (errno 107) as Stale; a path whose stat raises any other error
(in particular a nonexistent path) as Unmounted; and when the stat
succeeds, the platform mount-table query alone decides Active versus
Unmounted. -/
theorem C2_inspector_classification (os : OS) (fs : FS) (p : String) :
    (fs.statErrno p = some 107 → inspect os fs p = MountState.Stale)
    ∧ (∀ e : Nat, fs.statErrno p = some e → e ≠ 107 →
        inspect os fs p = MountState.Unmounted)
    ∧ (fs.statErrno p = none →
        inspect os fs p =
          (if mount_table_says_active os fs p then MountState.Active
           else MountState.Unmounted)) := by
  refine ⟨?_, ?_, ?_⟩
  · intro h
    simp [inspect, is_stale_mount, h]
  · intro e h hne
    have hb : (e == 107) = false := by
      simpa using hne
    simp [inspect, is_stale_mount, h, hb, is_mountpoint_active, pathExists]
  · intro h
    have hst : is_stale_mount fs p = false := by
      simp [is_stale_mount, h]
    by_cases hm : mount_table_says_active os fs p <;>
      simp [inspect, hst, is_mountpoint_active, pathExists, h, hm]

/-- C2 witness: a stale registration (stat raises 107) is classified
Stale even though the mount table still lists the path. -/
theorem C2_witness :
    inspect OS.linux exFSStale "/tmp/u/rclone/b" = MountState.Stale :=
  (C2_inspector_classification OS.linux exFSStale "/tmp/u/rclone/b").1 (by decide)

/-- C8: a path whose stat raises the transport-disconnected error
(errno 107) is never reported active, for every mount-table content
(so the stale verdict overrides any mount-table query), and hence
`is_mounted` reports false for a bucket with a stale mount point. -/
theorem C8_stale_never_mounted (env : Env) (fs : FS) (p bucket_name : String) :
    (fs.statErrno p = some 107 → is_mountpoint_active env.os fs p = false)
    ∧ (fs.statErrno (childPath (get_mount_base env.user)
          (normalize_bucket_name bucket_name)) = some 107 →
        is_mounted env fs bucket_name = false) := by
  constructor
  · intro h
    simp [is_mountpoint_active, is_stale_mount, h]
  · intro h
    simp [is_mounted, is_mountpoint_active, is_stale_mount, h]

/-- C8 witness: user u's bucket b has a stale mount point, the mount
table still lists every path, yet `is_mounted` answers false. -/
theorem C8_witness : is_mounted exEnv exFSStale "b" = false :=
  (C8_stale_never_mounted exEnv exFSStale "/tmp/u/rclone/b" "b").2 (by decide)

/-- C10: the `is_mounted` field of `get_mount_status` coincides with the
boolean returned by `is_mounted` for every bucket name: both normalize
the name the same way and probe the same canonical mount point with the
same inspector. -/
theorem C10_status_query_agreement (env : Env) (fs : FS) (bucket_name : String) :
    (get_mount_status env fs bucket_name).is_mounted = is_mounted env fs bucket_name := rfl

/-- C5: unmounting a bucket whose mount point is not active returns
successfully (no error), for any `remove_symlinks` flag. -/
theorem C5_unmount_not_mounted_noop (env : Env) (fs : FS) (bucket_name : String)
    (remove_symlinks : Bool)
    (h : is_mountpoint_active env.os fs
        (childPath (get_mount_base env.user) (normalize_bucket_name bucket_name))
      = false) :
    (unmount_bucket env fs bucket_name remove_symlinks).2.2 = Except.ok () := by
  simp [unmount_bucket, h]

/-- C5 witness: unmounting bucket b on an empty filesystem succeeds. -/
theorem C5_witness :
    (unmount_bucket exEnv exFSEmpty "b" true).2.2 = Except.ok () :=
  C5_unmount_not_mounted_noop exEnv exFSEmpty "b" true (by decide)

/-- C9: when the mount point is not active, `unmount_bucket` performs no
action at all: empty trace (no external unmount command, no symlink
removal) and an unchanged filesystem, even with `remove_symlinks = true`. -/
theorem C9_unmount_noop_frame (env : Env) (fs : FS) (bucket_name : String)
    (remove_symlinks : Bool)
    (h : is_mountpoint_active env.os fs
        (childPath (get_mount_base env.user) (normalize_bucket_name bucket_name))
      = false) :
    unmount_bucket env fs bucket_name remove_symlinks = ([], fs, Except.ok ()) := by
  simp [unmount_bucket, h]

/-- C9 witness: with the default symlink present but the mount inactive,
`unmount_bucket` with `remove_symlinks = true` leaves the filesystem
(and in particular that symlink) untouched. -/
theorem C9_witness :
    unmount_bucket exEnv exFSLinkOnly "b" true = ([], exFSLinkOnly, Except.ok ()) :=
  C9_unmount_noop_frame exEnv exFSLinkOnly "b" true (by decide)

/-- C3 counterexample: at `root_dir = /data`, bucket `b`, the path
`/data/b` exists and is not a symlink, yet `unlink_bucket` neither
raises nor deletes anything: it returns normally with the same
"nothing removed" signal `false` (its return type has no error channel
because the source cannot raise on this path), refuting the claimed
failure. -/
theorem C3_counterexample :
    pathExists exFSPlainFile "/data/b" = true
    ∧ exFSPlainFile.isSymlink "/data/b" = false
    ∧ unlink_bucket exEnv exFSPlainFile "b" (some "/data")
        = ([], exFSPlainFile, false) := by
  refine ⟨by decide, by decide, rfl⟩

/-- C3 amended: `unlink_bucket` removes the symlink at
`root_dir/bucket_id` without unmounting; when no symlink is at that path
— whether there is no entry or the entry is not a symlink — it returns
`false` (nothing removed) without raising and without deleting anything. -/
theorem C3_unlink_amended (env : Env) (fs : FS) (bucket_name : String)
    (root_dir : Option String) (sp : String)
    (hsp : sp = childPath
        (match root_dir with
          | some r => env.expanduser r
          | none => env.cwd)
        (normalize_bucket_name bucket_name)) :
    (fs.isSymlink sp = false →
      unlink_bucket env fs bucket_name root_dir = ([], fs, false))
    ∧ (fs.isSymlink sp = true →
      unlink_bucket env fs bucket_name root_dir =
        ([Action.unlinkPath sp], removeLink fs sp, true)) := by
  subst hsp
  constructor
  · intro h
    simp [unlink_bucket, h]
  · intro h
    simp [unlink_bucket, h]

/-- C3 witness: with a symlink present at the default root, the symlink
is removed (and only it), and with the plain-file filesystem the
no-symlink branch of the amended statement applies. -/
theorem C3_witness :
    unlink_bucket exEnv exFSLinkOnly "b" none =
      ([Action.unlinkPath "/home/u/b"], removeLink exFSLinkOnly "/home/u/b", true) :=
  (C3_unlink_amended exEnv exFSLinkOnly "b" none "/home/u/b" (by decide)).2 (by decide)

/-! ### Reduction lemmas for `mount_bucket` -/

theorem string_append_right_cancel (a b c : String) (h : a ++ c = b ++ c) : a = b := by
  have hd : a.data ++ c.data = b.data ++ c.data := by
    have h1 := congrArg String.data h
    simpa [String.data_append] using h1
  have h2 : a.data = b.data := List.append_cancel_right hd
  cases a
  cases b
  simp only at h2
  exact congrArg String.mk h2

theorem childPath_right_injective (r1 r2 b : String)
    (h : childPath r1 b = childPath r2 b) : r1 = r2 := by
  unfold childPath at h
  have h1 : r1 ++ "/" = r2 ++ "/" :=
    string_append_right_cancel (r1 ++ "/") (r2 ++ "/") b h
  exact string_append_right_cancel r1 r2 "/" h1

/-- With the preflight checks passing and no stale registration at the
canonical mount point, `mount_bucket` is the core phase of lines 303-347. -/
theorem mount_bucket_reduce (env : Env) (fs : FS) (bucket_name r remote : String)
    (hexp : env.expanduser r = r)
    (hrc : (check_rclone env).1 = true)
    (hfu : (check_fuse env).1 = true)
    (hs3 : (test_s3_access env (normalize_bucket_name bucket_name) remote).1 = true)
    (hst : is_stale_mount fs
        (childPath (get_mount_base env.user) (normalize_bucket_name bucket_name))
      = false) :
    mount_bucket env fs bucket_name (some r) remote =
      mount_core env fs (normalize_bucket_name bucket_name)
        (childPath (get_mount_base env.user) (normalize_bucket_name bucket_name))
        (childPath r (normalize_bucket_name bucket_name)) remote := by
  unfold mount_bucket
  simp [hexp, hrc, hfu, hs3, hst]

/-- When the canonical mount point is already active and the symlink path
is fresh, the core phase only prepares directories and links: it launches
no daemon and touches nothing else. -/
theorem mount_core_already_active (env : Env) (fs : FS) (b mp sp remote : String)
    (hact : is_mountpoint_active env.os fs mp = true)
    (hne : pathExists fs sp = false)
    (hns : fs.isSymlink sp = false)
    (d1 : sp ≠ parentPath mp) (d2 : sp ≠ mp) (d3 : sp ≠ parentPath sp) :
    mount_core env fs b mp sp remote =
      (mkdir3_trace mp sp ++ [Action.symlinkTo sp mp],
       addLink (mkdir3 fs mp sp) sp mp, Except.ok sp) := by
  have hne2 : pathExists (mkdir3 fs mp sp) sp = false := by
    have hne0 : (fs.statErrno sp).isNone = false := hne
    simp [mkdir3, pathExists, d1, d2, d3, hne0]
  have hact2 : is_mountpoint_active env.os (mkdir3 fs mp sp) mp = true :=
    active_mkdirP _ _ _ _ (active_mkdirP _ _ _ _ (active_mkdirP _ _ _ _ hact))
  have hinact : is_mountpoint_active env.os (mkdir3 fs mp sp) sp = false :=
    active_of_not_exists _ _ _ hne2
  have hsym2 : (mkdir3 fs mp sp).isSymlink sp = false := by
    simp [mkdir3, hns]
  unfold mount_core mount_if_needed link_step
  simp [hne2, hinact, hact2, hsym2]

/-- C1: with the canonical mount point already active, `mount_bucket`
skips the external mount invocation (step 7) and only runs the
directory-preparation and symlink steps; two such calls with different
root directories both succeed, launch no mount daemon, and leave two
distinct symlinks that both resolve to the single still-active canonical
mount point.  The path-disequality hypotheses say that the symlink
locations are not one of the three directories the call itself creates
(mount base, mount point, symlink parents), as in any real layout. -/
theorem C1_idempotent_mount (env : Env) (fs : FS)
    (bucket_name r1 r2 remote b mp sp1 sp2 : String)
    (hb : b = normalize_bucket_name bucket_name)
    (hmp : mp = childPath (get_mount_base env.user) b)
    (hsp1 : sp1 = childPath r1 b)
    (hsp2 : sp2 = childPath r2 b)
    (hr : r1 ≠ r2)
    (hexp1 : env.expanduser r1 = r1) (hexp2 : env.expanduser r2 = r2)
    (hrc : (check_rclone env).1 = true)
    (hfu : (check_fuse env).1 = true)
    (hs3 : (test_s3_access env b remote).1 = true)
    (hact : is_mountpoint_active env.os fs mp = true)
    (hne1 : pathExists fs sp1 = false) (hns1 : fs.isSymlink sp1 = false)
    (hne2 : pathExists fs sp2 = false) (hns2 : fs.isSymlink sp2 = false)
    (d11 : sp1 ≠ parentPath mp) (d12 : sp1 ≠ mp) (d13 : sp1 ≠ parentPath sp1)
    (d21 : sp2 ≠ parentPath mp) (d22 : sp2 ≠ mp) (d23 : sp2 ≠ parentPath sp2)
    (d24 : sp2 ≠ parentPath sp1)
    (out1 out2 : List Action × FS × Except Err String)
    (hout1 : out1 = mount_bucket env fs bucket_name (some r1) remote)
    (hout2 : out2 = mount_bucket env out1.2.1 bucket_name (some r2) remote) :
    out1.2.2 = Except.ok sp1
    ∧ countMountLaunches out1.1 = 0
    ∧ out2.2.2 = Except.ok sp2
    ∧ countMountLaunches out2.1 = 0
    ∧ sp1 ≠ sp2
    ∧ out2.2.1.isSymlink sp1 = true
    ∧ out2.2.1.isSymlink sp2 = true
    ∧ out2.2.1.symlinkTarget sp1 = some mp
    ∧ out2.2.1.symlinkTarget sp2 = some mp
    ∧ is_mountpoint_active env.os out2.2.1 mp = true := by
  subst hb hmp hsp1 hsp2
  set b := normalize_bucket_name bucket_name with hbdef
  set mp := childPath (get_mount_base env.user) b with hmpdef
  set sp1 := childPath r1 b with hsp1def
  set sp2 := childPath r2 b with hsp2def
  have hspne : sp1 ≠ sp2 := fun h => hr (childPath_right_injective r1 r2 b h)
  have hmpn : fs.statErrno mp = none := statErrno_of_active env.os fs mp hact
  have hst1 : is_stale_mount fs mp = false := by
    simp [is_stale_mount, hmpn]
  have hcall1 : out1 = (mkdir3_trace mp sp1 ++ [Action.symlinkTo sp1 mp],
      addLink (mkdir3 fs mp sp1) sp1 mp, Except.ok sp1) := by
    rw [hout1, mount_bucket_reduce env fs bucket_name r1 remote hexp1 hrc hfu hs3 hst1,
      mount_core_already_active env fs b mp sp1 remote hact hne1 hns1 d11 d12 d13]
  set fs1 := addLink (mkdir3 fs mp sp1) sp1 mp with hfs1def
  have hfs1 : out1.2.1 = fs1 := by rw [hcall1]
  -- the mount point is still active after the first call
  have hfs1mp : fs1.statErrno mp = none := by
    simp [hfs1def, mkdir3, hmpn]
  have hact1 : is_mountpoint_active env.os fs1 mp = true := by
    rw [active_congr env.os fs fs1 mp (by rw [hfs1mp, hmpn])
      (by simp [hfs1def, mkdir3]) (by simp [hfs1def, mkdir3])]
    exact hact
  have hst2 : is_stale_mount fs1 mp = false := by
    simp [is_stale_mount, hfs1mp]
  -- the second symlink location is still fresh after the first call
  have hne2' : pathExists fs1 sp2 = false := by
    have hne0 : (fs.statErrno sp2).isNone = false := hne2
    simp [hfs1def, pathExists, mkdir3, hspne.symm, d21, d22, d24, hne0]
  have hns2' : fs1.isSymlink sp2 = false := by
    simp [hfs1def, mkdir3, hspne.symm, hns2]
  have hcall2 : out2 = (mkdir3_trace mp sp2 ++ [Action.symlinkTo sp2 mp],
      addLink (mkdir3 fs1 mp sp2) sp2 mp, Except.ok sp2) := by
    rw [hout2, hfs1,
      mount_bucket_reduce env fs1 bucket_name r2 remote hexp2 hrc hfu hs3 hst2,
      mount_core_already_active env fs1 b mp sp2 remote hact1 hne2' hns2' d21 d22 d23]
  set fs2 := addLink (mkdir3 fs1 mp sp2) sp2 mp with hfs2def
  have hfs2 : out2.2.1 = fs2 := by rw [hcall2]
  have hfs2mp : fs2.statErrno mp = none := by
    simp [hfs2def, mkdir3, hfs1mp]
  refine ⟨by rw [hcall1], ?_, by rw [hcall2], ?_, hspne, ?_, ?_, ?_, ?_, ?_⟩
  · rw [hcall1]
    simp [countMountLaunches, mkdir3_trace]
  · rw [hcall2]
    simp [countMountLaunches, mkdir3_trace]
  · rw [hfs2]
    simp [hfs2def, hfs1def, mkdir3, hspne]
  · rw [hfs2]
    simp [hfs2def]
  · rw [hfs2]
    simp [hfs2def, hfs1def, mkdir3, hspne]
  · rw [hfs2]
    simp [hfs2def]
  · rw [hfs2]
    rw [active_congr env.os fs fs2 mp (by rw [hfs2mp, hmpn])
      (by simp [hfs2def, hfs1def, mkdir3]) (by simp [hfs2def, hfs1def, mkdir3])]
    exact hact

/-- C1 witness: two concrete mount calls for bucket `b` with roots
`/home/u/a` and `/home/u/c` against an already-active mount point launch
no daemon and leave two symlinks onto the one active mount. -/
theorem C1_witness :
    c1run1.2.2 = Except.ok "/home/u/a/b"
    ∧ countMountLaunches c1run1.1 = 0
    ∧ c1run2.2.2 = Except.ok "/home/u/c/b"
    ∧ countMountLaunches c1run2.1 = 0
    ∧ "/home/u/a/b" ≠ "/home/u/c/b"
    ∧ c1run2.2.1.isSymlink "/home/u/a/b" = true
    ∧ c1run2.2.1.isSymlink "/home/u/c/b" = true
    ∧ c1run2.2.1.symlinkTarget "/home/u/a/b" = some "/tmp/u/rclone/b"
    ∧ c1run2.2.1.symlinkTarget "/home/u/c/b" = some "/tmp/u/rclone/b"
    ∧ is_mountpoint_active exEnv.os c1run2.2.1 "/tmp/u/rclone/b" = true :=
  C1_idempotent_mount exEnv exFSActive "b" "/home/u/a" "/home/u/c" "s3_remote"
    "b" "/tmp/u/rclone/b" "/home/u/a/b" "/home/u/c/b"
    (by decide) (by decide) (by decide) (by decide) (by decide)
    rfl rfl (by decide) (by decide) (by decide) (by decide)
    (by decide) (by decide) (by decide) (by decide)
    (by decide) (by decide) (by decide) (by decide) (by decide) (by decide)
    (by decide)
    c1run1 c1run2 rfl rfl

/-! ### Poll loop lemmas -/

theorem poll_body_succ (active : Nat → Bool) (i n : Nat) :
    poll_body active i (n + 1) =
      if active i then ([Action.probe i], true)
      else
        (Action.probe i :: Action.sleepSec 1 :: (poll_body active (i + 1) n).1,
         (poll_body active (i + 1) n).2) := rfl

theorem poll_body_true_iff (active : Nat → Bool) :
    ∀ n i, (poll_body active i n).2 = true ↔ ∃ j, j < n ∧ active (i + j) = true := by
  intro n
  induction n with
  | zero =>
      intro i
      simp [poll_body]
  | succ m ih =>
      intro i
      by_cases h : active i = true
      · have hpb : (poll_body active i (m + 1)).2 = true := by
          rw [poll_body_succ, h]
          simp
        rw [hpb]
        simp only [true_iff]
        exact ⟨0, Nat.succ_pos m, by simpa using h⟩
      · have hfalse : active i = false := by
          revert h
          cases active i <;> simp
        have hpb : (poll_body active i (m + 1)).2 = (poll_body active (i + 1) m).2 := by
          rw [poll_body_succ, hfalse]
          simp
        rw [hpb, ih (i + 1)]
        constructor
        · rintro ⟨j, hj, hact⟩
          refine ⟨j + 1, by omega, ?_⟩
          have harg : i + (j + 1) = i + 1 + j := by omega
          rwa [harg]
        · rintro ⟨j, hj, hact⟩
          cases j with
          | zero =>
              rw [Nat.add_zero] at hact
              rw [hact] at hfalse
              exact absurd hfalse (by simp)
          | succ k =>
              refine ⟨k, by omega, ?_⟩
              have harg : i + 1 + k = i + (k + 1) := by omega
              rwa [harg]

/-- With every probe failing, the poll loop runs exactly its 10 bounded
attempts, sleeping one second after each, and reports failure. -/
theorem poll_fail_ten (active : Nat → Bool) (h : ∀ i, i < 10 → active i = false) :
    poll_until_mounted active 10 =
      ([Action.probe 0, Action.sleepSec 1, Action.probe 1, Action.sleepSec 1,
        Action.probe 2, Action.sleepSec 1, Action.probe 3, Action.sleepSec 1,
        Action.probe 4, Action.sleepSec 1, Action.probe 5, Action.sleepSec 1,
        Action.probe 6, Action.sleepSec 1, Action.probe 7, Action.sleepSec 1,
        Action.probe 8, Action.sleepSec 1, Action.probe 9, Action.sleepSec 1],
       false) := by
  have e : ∀ i n, active i = false →
      poll_body active i (n + 1) =
        (Action.probe i :: Action.sleepSec 1 :: (poll_body active (i + 1) n).1,
         (poll_body active (i + 1) n).2) := by
    intro i n hi
    rw [poll_body_succ, hi]
    simp
  unfold poll_until_mounted
  rw [show (10 : Nat) = 9 + 1 from rfl, e 0 9 (h 0 (by omega)),
      show (9 : Nat) = 8 + 1 from rfl, e 1 8 (h 1 (by omega)),
      show (8 : Nat) = 7 + 1 from rfl, e 2 7 (h 2 (by omega)),
      show (7 : Nat) = 6 + 1 from rfl, e 3 6 (h 3 (by omega)),
      show (6 : Nat) = 5 + 1 from rfl, e 4 5 (h 4 (by omega)),
      show (5 : Nat) = 4 + 1 from rfl, e 5 4 (h 5 (by omega)),
      show (4 : Nat) = 3 + 1 from rfl, e 6 3 (h 6 (by omega)),
      show (3 : Nat) = 2 + 1 from rfl, e 7 2 (h 7 (by omega)),
      show (2 : Nat) = 1 + 1 from rfl, e 8 1 (h 8 (by omega)),
      show (1 : Nat) = 0 + 1 from rfl, e 9 0 (h 9 (by omega))]
  simp [poll_body]

theorem mount_table_congr (os : OS) (fs fs' : FS) (p : String)
    (h2 : fs'.mtab p = fs.mtab p)
    (h3 : fs'.mountOutput = fs.mountOutput) :
    mount_table_says_active os fs' p = mount_table_says_active os fs p := by
  unfold mount_table_says_active
  cases os <;> simp [h2, h3]

/-- C6: after launching the daemon, `mount_bucket` polls the inspector at
1-second intervals with a bounded attempt count of 10 (conjuncts 1 and 2:
success of the poll is exactly some success within 10 attempts, and a
full failure performs 10 probes with a 1-second sleep after each); if the
bound is exceeded the call fails with a `MountError` naming the daemon's
log file (conjunct 3), and if the mount becomes active within the bound
the call proceeds to success (conjunct 4). -/
theorem C6_poll_bound (env : Env) (fs : FS)
    (bucket_name r remote b mp sp : String)
    (hb : b = normalize_bucket_name bucket_name)
    (hmp : mp = childPath (get_mount_base env.user) b)
    (hsp : sp = childPath r b)
    (hexp : env.expanduser r = r)
    (hrc : (check_rclone env).1 = true)
    (hfu : (check_fuse env).1 = true)
    (hs3 : (test_s3_access env b remote).1 = true)
    (hst : is_stale_mount fs mp = false)
    (hmt : mount_table_says_active env.os fs mp = false)
    (hne : pathExists fs sp = false)
    (hns : fs.isSymlink sp = false)
    (d1 : sp ≠ parentPath mp) (d2 : sp ≠ mp) (d3 : sp ≠ parentPath sp)
    (hrun : (env.run (rclone_mount_cmd b mp remote (rclone_log_file env b))).1 = 0) :
    ((poll_until_mounted env.pollActive 10).2 = true
        ↔ ∃ i, i < 10 ∧ env.pollActive i = true)
    ∧ ((∀ i, i < 10 → env.pollActive i = false) →
        poll_until_mounted env.pollActive 10 =
          ([Action.probe 0, Action.sleepSec 1, Action.probe 1, Action.sleepSec 1,
            Action.probe 2, Action.sleepSec 1, Action.probe 3, Action.sleepSec 1,
            Action.probe 4, Action.sleepSec 1, Action.probe 5, Action.sleepSec 1,
            Action.probe 6, Action.sleepSec 1, Action.probe 7, Action.sleepSec 1,
            Action.probe 8, Action.sleepSec 1, Action.probe 9, Action.sleepSec 1],
           false))
    ∧ ((∀ i, i < 10 → env.pollActive i = false) →
        mount_bucket env fs bucket_name (some r) remote =
          (mkdir3_trace mp sp ++
            (Action.clearDir mp
              :: Action.mkdirP ("/tmp/" ++ get_user env ++ "/rclone-logs")
              :: Action.rcloneMount b mp
              :: (poll_until_mounted env.pollActive 10).1),
           mkdir3 fs mp sp,
           Except.error (Err.mountError
             ("Mount failed. Check logs: " ++ rclone_log_file env b))))
    ∧ ((∃ i, i < 10 ∧ env.pollActive i = true) →
        (mount_bucket env fs bucket_name (some r) remote).2.2 = Except.ok sp) := by
  subst hb hmp hsp
  set b := normalize_bucket_name bucket_name with hbdef
  set mp := childPath (get_mount_base env.user) b with hmpdef
  set sp := childPath r b with hspdef
  have e_stat : (mkdir3 fs mp sp).statErrno sp = fs.statErrno sp := by
    simp [mkdir3, d1, d2, d3]
  have hne2 : pathExists (mkdir3 fs mp sp) sp = false := by
    have hne0 : (fs.statErrno sp).isNone = false := hne
    simp [pathExists, e_stat, hne0]
  have hsym2 : (mkdir3 fs mp sp).isSymlink sp = false := by
    simp [mkdir3, hns]
  have hinactsp : is_mountpoint_active env.os (mkdir3 fs mp sp) sp = false :=
    active_of_not_exists _ _ _ hne2
  have hstat2 : (mkdir3 fs mp sp).statErrno mp = none := by
    simp [mkdir3]
  have hact2 : is_mountpoint_active env.os (mkdir3 fs mp sp) mp = false := by
    unfold is_mountpoint_active
    rw [mount_table_congr env.os fs (mkdir3 fs mp sp) mp
      (by simp [mkdir3]) (by simp [mkdir3])]
    simp [is_stale_mount, hstat2, pathExists, hmt]
  have hdm : do_mount env b mp remote =
      ([Action.mkdirP ("/tmp/" ++ get_user env ++ "/rclone-logs"),
        Action.rcloneMount b mp], Except.ok ()) := by
    unfold do_mount
    simp [hrun]
  have hiff : (poll_until_mounted env.pollActive 10).2 = true
      ↔ ∃ i, i < 10 ∧ env.pollActive i = true := by
    unfold poll_until_mounted
    rw [poll_body_true_iff]
    constructor
    · rintro ⟨j, hj, ha⟩
      exact ⟨j, hj, by simpa using ha⟩
    · rintro ⟨j, hj, ha⟩
      exact ⟨j, hj, by simpa using ha⟩
  refine ⟨hiff, poll_fail_ten env.pollActive, ?_, ?_⟩
  · intro hfail
    have hpf : (poll_until_mounted env.pollActive 10).2 = false := by
      cases hp : (poll_until_mounted env.pollActive 10).2
      · rfl
      · obtain ⟨i, hi, ha⟩ := hiff.mp hp
        rw [hfail i hi] at ha
        exact absurd ha (by simp)
    rw [mount_bucket_reduce env fs bucket_name r remote hexp hrc hfu hs3 hst]
    unfold mount_core mount_if_needed
    simp [hne2, hsym2, hinactsp, hact2, hdm, hpf]
  · intro hex
    have hpt : (poll_until_mounted env.pollActive 10).2 = true := hiff.mpr hex
    rw [mount_bucket_reduce env fs bucket_name r remote hexp hrc hfu hs3 hst]
    unfold mount_core mount_if_needed link_step
    have hsymact : (activate (mkdir3 fs mp sp) mp).isSymlink sp = false := by
      simp [hsym2]
    simp [hne2, hsym2, hinactsp, hact2, hdm, hpt, hsymact]

/-- C6 witness: with every poll attempt failing, the concrete call fails
with the diagnostic error naming `/tmp/u/rclone-logs/b.log`, after the
full 10-probe, 1-second-interval poll. -/
theorem C6_witness :
    mount_bucket exEnvPollFail exFSEmpty "b" (some "/home/u/a") "s3_remote" =
      (mkdir3_trace "/tmp/u/rclone/b" "/home/u/a/b" ++
        (Action.clearDir "/tmp/u/rclone/b"
          :: Action.mkdirP ("/tmp/" ++ get_user exEnvPollFail ++ "/rclone-logs")
          :: Action.rcloneMount "b" "/tmp/u/rclone/b"
          :: (poll_until_mounted exEnvPollFail.pollActive 10).1),
       mkdir3 exFSEmpty "/tmp/u/rclone/b" "/home/u/a/b",
       Except.error (Err.mountError
         ("Mount failed. Check logs: " ++ rclone_log_file exEnvPollFail "b"))) :=
  (C6_poll_bound exEnvPollFail exFSEmpty "b" "/home/u/a" "s3_remote"
    "b" "/tmp/u/rclone/b" "/home/u/a/b"
    (by decide) (by decide) (by decide) rfl
    (by decide) (by decide) (by decide) (by decide) (by decide)
    (by decide) (by decide)
    (by decide) (by decide) (by decide) (by decide)).2.2.1
    (fun i _ => rfl)

/-- C7: when the symlink target path exists and is not a symlink, or is
itself an active mount point (necessarily distinct from the canonical
mount point, hypothesis `d2`), `mount_bucket` aborts with a `MountError`
right after the idempotent directory preparation: the whole trace is the
three `mkdir` calls — no mount invocation and no symlink replacement ever
happens, and the filesystem keeps all its entries (only the three
directories are marked existing). -/
theorem C7_conflict_check_aborts (env : Env) (fs : FS)
    (bucket_name r remote b mp sp : String)
    (hb : b = normalize_bucket_name bucket_name)
    (hmp : mp = childPath (get_mount_base env.user) b)
    (hsp : sp = childPath r b)
    (hexp : env.expanduser r = r)
    (hrc : (check_rclone env).1 = true)
    (hfu : (check_fuse env).1 = true)
    (hs3 : (test_s3_access env b remote).1 = true)
    (hst : is_stale_mount fs mp = false)
    (d1 : sp ≠ parentPath mp) (d2 : sp ≠ mp) (d3 : sp ≠ parentPath sp)
    (hconf : (pathExists fs sp = true ∧ fs.isSymlink sp = false)
      ∨ is_mountpoint_active env.os fs sp = true) :
    ∃ msg : String, mount_bucket env fs bucket_name (some r) remote =
      (mkdir3_trace mp sp, mkdir3 fs mp sp,
       Except.error (Err.mountError msg)) := by
  subst hb hmp hsp
  set b := normalize_bucket_name bucket_name with hbdef
  set mp := childPath (get_mount_base env.user) b with hmpdef
  set sp := childPath r b with hspdef
  have e_stat : (mkdir3 fs mp sp).statErrno sp = fs.statErrno sp := by
    simp [mkdir3, d1, d2, d3]
  have e_ex : pathExists (mkdir3 fs mp sp) sp = pathExists fs sp := by
    simp [pathExists, e_stat]
  have e_sym : (mkdir3 fs mp sp).isSymlink sp = fs.isSymlink sp := by
    simp [mkdir3]
  have e_act : is_mountpoint_active env.os (mkdir3 fs mp sp) sp
      = is_mountpoint_active env.os fs sp :=
    active_congr env.os fs _ sp e_stat (by simp [mkdir3]) (by simp [mkdir3])
  rw [mount_bucket_reduce env fs bucket_name r remote hexp hrc hfu hs3 hst]
  rcases hconf with ⟨hex, hsym⟩ | hactsp
  · refine ⟨sp ++ " exists and is not a symlink", ?_⟩
    unfold mount_core
    simp [e_ex, e_sym, hex, hsym]
  · have hex : pathExists fs sp = true := by
      have hn := statErrno_of_active env.os fs sp hactsp
      simp [pathExists, hn]
    cases hsym : fs.isSymlink sp
    · refine ⟨sp ++ " exists and is not a symlink", ?_⟩
      unfold mount_core
      simp [e_ex, e_sym, hex, hsym]
    · refine ⟨sp ++ " is already a mount point", ?_⟩
      unfold mount_core
      simp [e_ex, e_sym, hex, hsym, e_act, hactsp]

/-- C7 witness: with a plain file already sitting at `/data/b`, the
concrete mount call aborts after the three `mkdir` calls with a
`MountError`. -/
theorem C7_witness :
    ∃ msg : String, mount_bucket exEnv exFSPlainFile "b" (some "/data") "s3_remote" =
      (mkdir3_trace "/tmp/u/rclone/b" "/data/b",
       mkdir3 exFSPlainFile "/tmp/u/rclone/b" "/data/b",
       Except.error (Err.mountError msg)) :=
  C7_conflict_check_aborts exEnv exFSPlainFile "b" "/data" "s3_remote"
    "b" "/tmp/u/rclone/b" "/data/b"
    (by decide) (by decide) (by decide) rfl
    (by decide) (by decide) (by decide) (by decide)
    (by decide) (by decide) (by decide)
    (Or.inl ⟨by decide, by decide⟩)

end Buckets
